import Mathlib

/-
  Verification of duckhouse (koron/duckhouse): a shallow embedding of the
  connection-session registry, the streaming CSV encoder and the HTTP query
  endpoint, with theorems settling the specification claims.

  The registry's three sync.Map values are modelled as a record of lists:
  idSet as a list of active ids, connToID and idToDB as association lists.
  The sequential model captures each atomic map operation
  (LoadOrStore, Store, LoadAndDelete, Delete) as one step on the record.
  The random source of duckhouseNewConnID is modelled as an explicit list
  of candidate ids; exhausting the list (result none) models the loop still
  spinning, since the Go loop has no exit other than a fresh candidate.
-/

set_option linter.unusedVariables false

deriving instance DecidableEq for Except

namespace Duckhouse

/-- Network connections are opaque map keys in the source; model them as Nat. -/
abbrev Conn := Nat

/-- Session ids are uint64 values; the code never does arithmetic on them,
only equality tests, so Nat is a faithful carrier. -/
abbrev SessionID := Nat

/-- A `*sql.DB` handle; only its identity matters to the registry. -/
structure DB where
  handle : Nat
deriving DecidableEq, Repr

/-- The three global sync.Map registries of the source:
`idSet` (active-id set), `connToID` and `idToDB`. -/
structure Registry where
  idSet : List SessionID
  connToID : List (Conn × SessionID)
  idToDB : List (SessionID × DB)
deriving DecidableEq, Repr

/-- Lookup in an association list (sync.Map Load). -/
def lookupKey {β : Type} (k : Nat) : List (Nat × β) → Option β
  | [] => none
  | (k1, v) :: rest => if k1 = k then some v else lookupKey k rest

/-- Remove a key from an association list (sync.Map Delete). -/
def removeKey {β : Type} (k : Nat) : List (Nat × β) → List (Nat × β)
  | [] => []
  | (k1, v) :: rest => if k1 = k then removeKey k rest else (k1, v) :: removeKey k rest

/-- Overwriting store (sync.Map Store). -/
def storeKey {β : Type} (k : Nat) (v : β) (l : List (Nat × β)) : List (Nat × β) :=
  (k, v) :: removeKey k l

/-- Connections that currently hold a mapping in connToID. -/
def connKeys (st : Registry) : List Conn :=
  st.connToID.map Prod.fst

/-- SessionIDs held by currently open connections. -/
def connIDs (st : Registry) : List SessionID :=
  st.connToID.map Prod.snd

/-- `duckhouseNewConnID`: draw candidates from the random stream; LoadOrStore
into idSet retries on collision and, on a fresh candidate, inserts it into
idSet in the same step, then stores conn→id and returns the id.  The Go loop
is `for {}` with no other exit; result `none` models the loop still running
after the modelled stream is exhausted. -/
def duckhouseNewConnID (c : Conn) : List SessionID → Registry → Option (SessionID × Registry)
  | [], _ => none
  | id :: rest, st =>
    if id ∈ st.idSet then
      duckhouseNewConnID c rest st
    else
      some (id, { st with idSet := id :: st.idSet, connToID := storeKey c id st.connToID })

/-- `duckhouseGetDB`: the connection id comes from the request context
 (`ctxId`); `openResult` is the outcome of `sql.Open("duckdb", "")`.
Returns the existing DB (with second component 0, as the source does) when
mapped; otherwise creates, stores and returns it; on creation failure the
registry is returned untouched. -/
def duckhouseGetDB (ctxId : Option SessionID) (openResult : Except String DB)
    (st : Registry) : Except String (DB × SessionID) × Registry :=
  match ctxId with
  | none => (Except.error "no connection ID assigned for request", st)
  | some id =>
    match lookupKey id st.idToDB with
    | some db => (Except.ok (db, 0), st)
    | none =>
      match openResult with
      | Except.error e => (Except.error e, st)
      | Except.ok db =>
        (Except.ok (db, id), { st with idToDB := storeKey id db st.idToDB })

/-- `duckhouseCloseConn`: LoadAndDelete conn from connToID (error if absent),
delete the id from idSet, LoadAndDelete the DB from idToDB and close it when
present.  The third component lists the DB handles whose Close was called. -/
def duckhouseCloseConn (c : Conn) (st : Registry) :
    Except String Unit × Registry × List DB :=
  match lookupKey c st.connToID with
  | none => (Except.error ("no ID for net.Conn=" ++ toString c), st, [])
  | some id =>
    let st1 : Registry :=
      { st with connToID := removeKey c st.connToID, idSet := st.idSet.erase id }
    match lookupKey id st1.idToDB with
    | none => (Except.ok (), st1, [])
    | some db => (Except.ok (), { st1 with idToDB := removeKey id st1.idToDB }, [db])

/-- A sequence of AssignID calls, each with its own candidate stream;
returns the assigned ids in call order. -/
def assignSeq : List (Conn × List SessionID) → Registry → Option (List SessionID × Registry)
  | [], st => some ([], st)
  | (c, cands) :: rest, st =>
    match duckhouseNewConnID c cands st with
    | none => none
    | some (id, st1) =>
      match assignSeq rest st1 with
      | none => none
      | some (ids, st2) => some (id :: ids, st2)

/-- Registry consistency: no duplicate active ids, no duplicate connection
keys, and the active-id set is exactly (as a multiset) the set of ids held
by open connections. -/
def Consistent (st : Registry) : Prop :=
  st.idSet.Nodup ∧ (connKeys st).Nodup ∧ st.idSet.Perm (connIDs st)

instance (st : Registry) : Decidable (Consistent st) := by
  unfold Consistent; infer_instance

/-- A scalar value scanned into an `any`: DuckDB NULL scans to a nil
interface; numbers and text are the other scalar shapes the claims use. -/
inductive Value where
  | vnull
  | vint (n : Int)
  | vtext (s : String)
deriving DecidableEq, Repr

/-- `fmt.Sprint` applied to the scanned `any` value, as writeAsCSV does for
each cell: a nil interface prints as "<nil>", numbers and strings print as
their text. -/
def fmtSprint : Value → String
  | Value.vnull => "<nil>"
  | Value.vint n => toString n
  | Value.vtext s => s

/-- One result set: column names from ColumnTypes, then the rows. -/
structure ResultSet where
  columns : List String
  rows : List (List Value)
deriving DecidableEq, Repr

/-- `writeAsCSV`: the outer loop runs once per result set (NextResultSet
advances); per iteration it writes the header record iff len(types) > 0,
then one record per row, each cell rendered with fmt.Sprint.  Output is the
sequence of records handed to the csv.Writer. -/
def writeAsCSV : List ResultSet → List (List String)
  | [] => []
  | rs :: rest =>
    (if 0 < rs.columns.length then [rs.columns] else [])
      ++ rs.rows.map (fun row => row.map fmtSprint)
      ++ writeAsCSV rest

/-- An HTTP request as the endpoint sees it: method, path, body, and the two
recognized query parameters (Go's Query().Get returns "" when absent), plus
the connection id injected into the context by duckhouseConnContext. -/
structure Request where
  method : String
  path : String
  body : String
  qParam : String
  queryParam : String
  ctxId : Option SessionID
deriving DecidableEq, Repr

/-- `readQuery`: the body when non-empty, else parameter q, else parameter
query, else the empty string. -/
def readQuery (r : Request) : String :=
  if 0 < r.body.length then r.body
  else if r.qParam ≠ "" then r.qParam
  else if r.queryParam ≠ "" then r.queryParam
  else ""

/-- A response body: either plain text or the CSV records streamed out. -/
inductive Body where
  | text (s : String)
  | csv (records : List (List String))
deriving DecidableEq, Repr

/-- Outcome of db.QueryContext for a given query. -/
inductive QueryOutcome where
  | qerror (msg : String)
  | qok (rss : List ResultSet)

/-- `duckhouseHandleQuery`: 404 on a method other than GET/POST, 400 on an
empty resolved query, 500 when no DB can be associated or the query fails,
otherwise 200 with the CSV stream.  `openResult` models sql.Open and
`engine` models db.QueryContext. -/
def duckhouseHandleQuery (r : Request) (openResult : Except String DB)
    (engine : DB → String → QueryOutcome) (st : Registry) : Nat × Body × Registry :=
  if r.method ≠ "GET" ∧ r.method ≠ "POST" then
    (404, Body.text "Not Found\r\n", st)
  else
    let query := readQuery r
    if query = "" then
      (400, Body.text "No queries, please specify a query\r\n", st)
    else
      match duckhouseGetDB r.ctxId openResult st with
      | (Except.error e, st1) => (500, Body.text ("No associated DB: " ++ e), st1)
      | (Except.ok (db, _), st1) =>
        match engine db query with
        | QueryOutcome.qerror e => (500, Body.text ("Query failed: " ++ e ++ "\r\n"), st1)
        | QueryOutcome.qok rss => (200, Body.csv (writeAsCSV rss), st1)

/-- `duckhouseHandler`: dispatch by path; "/" goes to the query endpoint,
"/ping" and any "/ping/" prefix answer 200 "OK", anything else 404. -/
def duckhouseHandler (r : Request) (openResult : Except String DB)
    (engine : DB → String → QueryOutcome) (st : Registry) : Nat × Body × Registry :=
  if r.path = "/" then
    duckhouseHandleQuery r openResult engine st
  else if r.path = "/ping" ∨ "/ping/".data.isPrefixOf r.path.data then
    (200, Body.text "OK\r\n", st)
  else
    (404, Body.text "Not Found\r\n", st)

theorem lookupKey_removeKey_self {β : Type} (k : Nat) (l : List (Nat × β)) :
    lookupKey k (removeKey k l) = none := by
  induction l with
  | nil => rfl
  | cons p rest ih =>
    obtain ⟨k1, v⟩ := p
    by_cases h : k1 = k
    · simp only [removeKey, if_pos h]
      exact ih
    · simp only [removeKey, if_neg h, lookupKey, ih]

theorem removeKey_of_not_mem {β : Type} (k : Nat) (l : List (Nat × β))
    (h : k ∉ l.map Prod.fst) : removeKey k l = l := by
  induction l with
  | nil => rfl
  | cons p rest ih =>
    obtain ⟨k1, v⟩ := p
    simp only [List.map_cons, List.mem_cons] at h
    push_neg at h
    rw [removeKey, if_neg (fun hh => h.1 hh.symm), ih h.2]

/-- C1: ReleaseConnection (duckhouseCloseConn) is idempotent: after a
successful release, the Session was closed at most once, and a second call
for the same connection returns a "not found" error, leaves every registry
mapping unchanged and closes no Session. -/
theorem duckhouseCloseConn_idempotent (c : Conn) (st st' : Registry) (closed : List DB)
    (h : duckhouseCloseConn c st = (Except.ok (), st', closed)) :
    closed.length ≤ 1 ∧
    duckhouseCloseConn c st' =
      (Except.error ("no ID for net.Conn=" ++ toString c), st', []) := by
  unfold duckhouseCloseConn at h
  cases hl : lookupKey c st.connToID with
  | none =>
    rw [hl] at h
    simp at h
  | some id =>
    rw [hl] at h
    simp only at h
    cases hd : lookupKey id st.idToDB with
    | none =>
      rw [hd] at h
      simp only [Prod.mk.injEq] at h
      obtain ⟨-, h2, h3⟩ := h
      subst h2; subst h3
      refine ⟨by simp, ?_⟩
      unfold duckhouseCloseConn
      simp only [lookupKey_removeKey_self]
    | some db =>
      rw [hd] at h
      simp only [Prod.mk.injEq] at h
      obtain ⟨-, h2, h3⟩ := h
      subst h2; subst h3
      refine ⟨by simp, ?_⟩
      unfold duckhouseCloseConn
      simp only [lookupKey_removeKey_self]

theorem duckhouseCloseConn_idempotent_witness :
    duckhouseCloseConn 0 (Registry.mk [1] [(0, 1)] [(1, DB.mk 9)])
      = (Except.ok (), Registry.mk [] [] [], [DB.mk 9]) ∧
    ([DB.mk 9].length ≤ 1 ∧
      duckhouseCloseConn 0 (Registry.mk [] [] [])
        = (Except.error ("no ID for net.Conn=" ++ toString 0), Registry.mk [] [] [], [])) :=
  ⟨by decide,
    duckhouseCloseConn_idempotent 0 (Registry.mk [1] [(0, 1)] [(1, DB.mk 9)])
      (Registry.mk [] [] []) [DB.mk 9] (by decide)⟩

theorem duckhouseNewConnID_step (c : Conn) (cands : List SessionID) (st st' : Registry)
    (id : SessionID) (h : duckhouseNewConnID c cands st = some (id, st')) :
    id ∉ st.idSet ∧
    st' = { st with idSet := id :: st.idSet, connToID := storeKey c id st.connToID } := by
  induction cands with
  | nil => simp [duckhouseNewConnID] at h
  | cons a rest ih =>
    by_cases ha : a ∈ st.idSet
    · rw [duckhouseNewConnID, if_pos ha] at h
      exact ih h
    · rw [duckhouseNewConnID, if_neg ha] at h
      simp only [Option.some.injEq, Prod.mk.injEq] at h
      obtain ⟨h1, h2⟩ := h
      subst h1
      exact ⟨ha, h2.symm⟩

theorem duckhouseNewConnID_consistent (c : Conn) (cands : List SessionID)
    (st st' : Registry) (id : SessionID)
    (hf : c ∉ connKeys st) (hc : Consistent st)
    (h : duckhouseNewConnID c cands st = some (id, st')) :
    id ∉ st.idSet ∧ st'.idSet = id :: st.idSet ∧
    st'.connToID = (c, id) :: st.connToID ∧ st'.idToDB = st.idToDB ∧ Consistent st' := by
  obtain ⟨hid, hst⟩ := duckhouseNewConnID_step c cands st st' id h
  subst hst
  have hrm : removeKey c st.connToID = st.connToID := removeKey_of_not_mem c _ hf
  obtain ⟨h1, h2, h3⟩ := hc
  have hconn : storeKey c id st.connToID = (c, id) :: st.connToID := by
    rw [storeKey, hrm]
  refine ⟨hid, rfl, hconn, rfl, ?_, ?_, ?_⟩
  · exact List.nodup_cons.mpr ⟨hid, h1⟩
  · show (List.map Prod.fst (storeKey c id st.connToID)).Nodup
    rw [hconn]
    exact List.nodup_cons.mpr ⟨hf, h2⟩
  · show (id :: st.idSet).Perm (List.map Prod.snd (storeKey c id st.connToID))
    rw [hconn]
    exact List.Perm.cons id h3

theorem assignSeq_spec (reqs : List (Conn × List SessionID)) (st : Registry)
    (ids : List SessionID) (st' : Registry)
    (hc : Consistent st)
    (hnd : (reqs.map Prod.fst).Nodup)
    (hf : ∀ c ∈ reqs.map Prod.fst, c ∉ connKeys st)
    (h : assignSeq reqs st = some (ids, st')) :
    ids.Nodup ∧ Consistent st' ∧ st'.idSet.Perm (ids ++ st.idSet) ∧
    (∀ i ∈ ids, i ∉ st.idSet) := by
  induction reqs generalizing st ids st' with
  | nil =>
    simp only [assignSeq, Option.some.injEq, Prod.mk.injEq] at h
    obtain ⟨h1, h2⟩ := h
    subst h1; subst h2
    exact ⟨List.nodup_nil, hc, List.Perm.refl _, by simp⟩
  | cons p rest ih =>
    obtain ⟨c, cands⟩ := p
    simp only [assignSeq] at h
    cases h1 : duckhouseNewConnID c cands st with
    | none => rw [h1] at h; simp at h
    | some r =>
      obtain ⟨id, st1⟩ := r
      rw [h1] at h
      dsimp only at h
      cases h2 : assignSeq rest st1 with
      | none => rw [h2] at h; simp at h
      | some r2 =>
        obtain ⟨ids1, st2⟩ := r2
        rw [h2] at h
        simp only [Option.some.injEq, Prod.mk.injEq] at h
        obtain ⟨hi, hs⟩ := h
        subst hi; subst hs
        have hcmem : c ∉ connKeys st := hf c (by simp)
        obtain ⟨hid, hset, hconn, hdb, hc1⟩ :=
          duckhouseNewConnID_consistent c cands st st1 id hcmem hc h1
        have hkeys1 : connKeys st1 = c :: connKeys st := by
          rw [connKeys, hconn, List.map_cons]
          rfl
        have hcne : c ∉ rest.map Prod.fst := (List.nodup_cons.mp (by simpa using hnd)).1
        have hnd1 : (rest.map Prod.fst).Nodup := (List.nodup_cons.mp (by simpa using hnd)).2
        have hf1 : ∀ c2 ∈ rest.map Prod.fst, c2 ∉ connKeys st1 := by
          intro c2 hc2
          rw [hkeys1]
          simp only [List.mem_cons]
          push_neg
          refine ⟨fun he => hcne (he ▸ hc2), hf c2 ?_⟩
          simp [hc2]
        obtain ⟨hnd2, hc2', hperm2, hnotin2⟩ := ih st1 ids1 st2 hc1 hnd1 hf1 h2
        have hidni : id ∉ ids1 := fun hmem =>
          hnotin2 id hmem (by rw [hset]; exact List.mem_cons_self id st.idSet)
        refine ⟨List.nodup_cons.mpr ⟨hidni, hnd2⟩, hc2', ?_, ?_⟩
        · have : st2.idSet.Perm (ids1 ++ (id :: st.idSet)) := by
            rw [hset] at hperm2
            exact hperm2
          exact this.trans List.perm_middle
        · intro i hi2
          rcases List.mem_cons.mp hi2 with he | hmem
          · subst he; exact hid
          · intro hin
            exact hnotin2 i hmem (by rw [hset]; exact List.mem_cons_of_mem id hin)

/-- C2: every id returned by AssignID (duckhouseNewConnID) is absent from the
active-id set at the moment of reservation and inserted into it in the same
step (together with the conn→id mapping); consequently any sequence of
AssignID calls on fresh connections yields pairwise-distinct SessionIDs and
keeps the active-id set equal (as a multiset) to the ids of open
connections. -/
theorem duckhouseNewConnID_spec :
    (∀ c cands st st' id, c ∉ connKeys st → Consistent st →
      duckhouseNewConnID c cands st = some (id, st') →
      id ∉ st.idSet ∧ st'.idSet = id :: st.idSet ∧
      st'.connToID = (c, id) :: st.connToID ∧ Consistent st') ∧
    (∀ reqs st ids st', Consistent st → (List.map Prod.fst reqs).Nodup →
      (∀ c ∈ List.map Prod.fst reqs, c ∉ connKeys st) →
      assignSeq reqs st = some (ids, st') →
      ids.Nodup ∧ Consistent st' ∧ st'.idSet.Perm (ids ++ st.idSet)) := by
  constructor
  · intro c cands st st' id hf hc h
    obtain ⟨h1, h2, h3, h4, h5⟩ := duckhouseNewConnID_consistent c cands st st' id hf hc h
    exact ⟨h1, h2, h3, h5⟩
  · intro reqs st ids st' hc hnd hf h
    obtain ⟨h1, h2, h3, h4⟩ := assignSeq_spec reqs st ids st' hc hnd hf h
    exact ⟨h1, h2, h3⟩

theorem duckhouseNewConnID_spec_witness :
    ((7 : SessionID) ∉ (Registry.mk [] [] []).idSet ∧
      (Registry.mk [7] [(0, 7)] []).idSet = 7 :: (Registry.mk [] [] []).idSet ∧
      (Registry.mk [7] [(0, 7)] []).connToID = (0, 7) :: (Registry.mk [] [] []).connToID ∧
      Consistent (Registry.mk [7] [(0, 7)] [])) ∧
    ([5, 6].Nodup ∧ Consistent (Registry.mk [6, 5] [(1, 6), (0, 5)] []) ∧
      (Registry.mk [6, 5] [(1, 6), (0, 5)] []).idSet.Perm
        ([5, 6] ++ (Registry.mk [] [] []).idSet)) :=
  ⟨duckhouseNewConnID_spec.1 0 [7] (Registry.mk [] [] []) (Registry.mk [7] [(0, 7)] []) 7
      (by decide) (by decide) (by decide),
    duckhouseNewConnID_spec.2 [(0, [5]), (1, [5, 6])] (Registry.mk [] [] [])
      [5, 6] (Registry.mk [6, 5] [(1, 6), (0, 5)] [])
      (by decide) (by decide) (by decide) (by decide)⟩

/-- C3: for each result set (with a nonempty schema) the encoder emits the
header record with the column names first, then one record per row in row
order, each cell rendered positionally by fmt.Sprint; in particular a
two-row single-column result yields exactly header, row 1, row 2. -/
theorem writeAsCSV_spec :
    (∀ rs rest, rs.columns ≠ [] →
      writeAsCSV (rs :: rest) =
        rs.columns :: (rs.rows.map (fun row => row.map fmtSprint) ++ writeAsCSV rest)) ∧
    writeAsCSV [ResultSet.mk ["1"] [[Value.vint 1], [Value.vint 2]]] = [["1"], ["1"], ["2"]] := by
  constructor
  · intro rs rest hne
    rw [writeAsCSV, if_pos (List.length_pos.mpr hne)]
    rfl
  · decide

theorem writeAsCSV_spec_witness :
    (ResultSet.mk ["1"] [[Value.vint 1], [Value.vint 2]]).columns ≠ [] ∧
    writeAsCSV [ResultSet.mk ["1"] [[Value.vint 1], [Value.vint 2]]] =
      (ResultSet.mk ["1"] [[Value.vint 1], [Value.vint 2]]).columns ::
        ((ResultSet.mk ["1"] [[Value.vint 1], [Value.vint 2]]).rows.map
            (fun row => row.map fmtSprint) ++ writeAsCSV []) :=
  ⟨by decide,
    writeAsCSV_spec.1 (ResultSet.mk ["1"] [[Value.vint 1], [Value.vint 2]]) [] (by decide)⟩

/-- C10: a result set with zero columns gets no header record (its block is
just its rendered rows), while a result set with at least one column always
has its column-name record first. -/
theorem writeAsCSV_header_condition :
    (∀ rs rest, rs.columns = [] →
      writeAsCSV (rs :: rest) =
        rs.rows.map (fun row => row.map fmtSprint) ++ writeAsCSV rest) ∧
    (∀ rs rest, rs.columns ≠ [] →
      (writeAsCSV (rs :: rest)).head? = some rs.columns) := by
  constructor
  · intro rs rest hcol
    rw [writeAsCSV, if_neg (by simp [hcol])]
    rfl
  · intro rs rest hne
    rw [writeAsCSV, if_pos (List.length_pos.mpr hne)]
    rfl

theorem writeAsCSV_header_condition_witness :
    ((ResultSet.mk [] [[]]).columns = [] ∧
      writeAsCSV [ResultSet.mk [] [[]]] =
        (ResultSet.mk ([] : List String) [[]]).rows.map
            (fun row => row.map fmtSprint) ++ writeAsCSV []) ∧
    ((ResultSet.mk ["c"] []).columns ≠ [] ∧
      (writeAsCSV [ResultSet.mk ["c"] []]).head? = some ["c"]) :=
  ⟨⟨by decide, writeAsCSV_header_condition.1 (ResultSet.mk [] [[]]) [] (by decide)⟩,
    ⟨by decide, writeAsCSV_header_condition.2 (ResultSet.mk ["c"] []) [] (by decide)⟩⟩

/-- C8: a null scalar in an emitted row is rendered as the explicit marker
"<nil>" (fmt.Sprint of a nil interface), which differs from the rendering of
an empty string value at the same position. -/
theorem writeAsCSV_null_marker (rs : ResultSet) (row : List Value) (i : Nat)
    (hrow : row ∈ rs.rows) (hi : row[i]? = some Value.vnull) :
    List.map fmtSprint row ∈ writeAsCSV [rs] ∧
    (List.map fmtSprint row)[i]? = some "<nil>" ∧
    ("<nil>" : String) ≠ fmtSprint (Value.vtext "") := by
  refine ⟨?_, ?_, by decide⟩
  · rw [writeAsCSV, writeAsCSV]
    apply List.mem_append.mpr
    left
    apply List.mem_append.mpr
    right
    exact List.mem_map.mpr ⟨row, hrow, rfl⟩
  · rw [List.getElem?_map, hi]
    rfl

theorem writeAsCSV_null_marker_witness :
    [Value.vnull, Value.vtext ""] ∈ (ResultSet.mk ["c"] [[Value.vnull, Value.vtext ""]]).rows ∧
    ([Value.vnull, Value.vtext ""][0]? = some Value.vnull) ∧
    (List.map fmtSprint [Value.vnull, Value.vtext ""] ∈
        writeAsCSV [ResultSet.mk ["c"] [[Value.vnull, Value.vtext ""]]] ∧
      (List.map fmtSprint [Value.vnull, Value.vtext ""])[0]? = some "<nil>" ∧
      ("<nil>" : String) ≠ fmtSprint (Value.vtext "")) :=
  ⟨by decide, by decide,
    writeAsCSV_null_marker (ResultSet.mk ["c"] [[Value.vnull, Value.vtext ""]])
      [Value.vnull, Value.vtext ""] 0 (by decide) (by decide)⟩

theorem string_length_pos_of_ne (s : String) (h : s ≠ "") : 0 < s.length := by
  rcases s with ⟨l⟩
  cases l with
  | nil => exact absurd rfl h
  | cons a t => simp [String.length]

theorem readQuery_of_empty (r : Request) (hb : r.body = "") (hq : r.qParam = "")
    (hqq : r.queryParam = "") : readQuery r = "" := by
  rw [readQuery, hb]
  simp [hq, hqq]

theorem handleQuery_400_of_empty (r : Request) (openResult : Except String DB)
    (engine : DB → String → QueryOutcome) (st : Registry)
    (hm : r.method = "GET" ∨ r.method = "POST") (hrq : readQuery r = "") :
    duckhouseHandleQuery r openResult engine st =
      (400, Body.text "No queries, please specify a query\r\n", st) := by
  rcases hm with h | h <;> simp [duckhouseHandleQuery, hrq, h]

/-- C4: GetOrCreateSession (duckhouseGetDB) returns the existing DB when the
id is mapped; otherwise it creates one, stores it under the id and returns
it; when creation fails it returns the error with the idToDB mapping
untouched, so a later call can retry creation. -/
theorem duckhouseGetDB_spec :
    (∀ id st db openResult, lookupKey id st.idToDB = some db →
      duckhouseGetDB (some id) openResult st = (Except.ok (db, 0), st)) ∧
    (∀ id st db, lookupKey id st.idToDB = none →
      duckhouseGetDB (some id) (Except.ok db) st =
        (Except.ok (db, id), { st with idToDB := storeKey id db st.idToDB }) ∧
      lookupKey id (storeKey id db st.idToDB) = some db) ∧
    (∀ id st e, lookupKey id st.idToDB = none →
      duckhouseGetDB (some id) (Except.error e) st = (Except.error e, st)) := by
  refine ⟨?_, ?_, ?_⟩
  · intro id st db openResult hl
    simp [duckhouseGetDB, hl]
  · intro id st db hl
    refine ⟨by simp [duckhouseGetDB, hl], ?_⟩
    rw [storeKey, lookupKey, if_pos rfl]
  · intro id st e hl
    simp [duckhouseGetDB, hl]

theorem duckhouseGetDB_spec_witness :
    (lookupKey 1 (Registry.mk [1] [(0, 1)] [(1, DB.mk 9)]).idToDB = some (DB.mk 9) ∧
      duckhouseGetDB (some 1) (Except.error "x") (Registry.mk [1] [(0, 1)] [(1, DB.mk 9)]) =
        (Except.ok (DB.mk 9, 0), Registry.mk [1] [(0, 1)] [(1, DB.mk 9)])) ∧
    (lookupKey 2 (Registry.mk [2] [(0, 2)] []).idToDB = none ∧
      (duckhouseGetDB (some 2) (Except.ok (DB.mk 4)) (Registry.mk [2] [(0, 2)] []) =
        (Except.ok (DB.mk 4, 2),
          { Registry.mk [2] [(0, 2)] [] with
              idToDB := storeKey 2 (DB.mk 4) (Registry.mk [2] [(0, 2)] []).idToDB }) ∧
        lookupKey 2 (storeKey 2 (DB.mk 4) (Registry.mk [2] [(0, 2)] []).idToDB)
          = some (DB.mk 4))) ∧
    (lookupKey 2 (Registry.mk [2] [(0, 2)] []).idToDB = none ∧
      duckhouseGetDB (some 2) (Except.error "boom") (Registry.mk [2] [(0, 2)] []) =
        (Except.error "boom", Registry.mk [2] [(0, 2)] [])) :=
  ⟨⟨by decide, duckhouseGetDB_spec.1 1 (Registry.mk [1] [(0, 1)] [(1, DB.mk 9)])
      (DB.mk 9) (Except.error "x") (by decide)⟩,
    ⟨by decide, duckhouseGetDB_spec.2.1 2 (Registry.mk [2] [(0, 2)] []) (DB.mk 4) (by decide)⟩,
    ⟨by decide, duckhouseGetDB_spec.2.2 2 (Registry.mk [2] [(0, 2)] []) "boom" (by decide)⟩⟩

/-- C5 counterexample: with id 0 active, sixty consecutive colliding random
candidates leave duckhouseNewConnID still iterating: it has neither returned
an id nor signalled any fatal error, so the loop is not bounded by a retry
cap of sixty or fewer, and the function has no error result at all. -/
theorem duckhouseNewConnID_cap_counterexample :
    duckhouseNewConnID 0 (List.replicate 60 0) (Registry.mk [0] [] []) = none := by
  decide

/-- C5 amended: the retry loop of duckhouseNewConnID has no retry cap and no
fatal-error exit: for every length n of an all-colliding candidate stream
the loop is still running after n draws, and the call returns an id exactly
when the stream contains some candidate outside the active-id set. -/
theorem duckhouseNewConnID_no_retry_cap :
    (∀ c n id st, id ∈ st.idSet →
      duckhouseNewConnID c (List.replicate n id) st = none) ∧
    (∀ c cands st, (duckhouseNewConnID c cands st).isSome = true ↔
      ∃ i ∈ cands, i ∉ st.idSet) := by
  constructor
  · intro c n id st hid
    induction n with
    | zero => rfl
    | succ n ihn =>
      rw [List.replicate_succ, duckhouseNewConnID, if_pos hid]
      exact ihn
  · intro c cands st
    induction cands with
    | nil => simp [duckhouseNewConnID]
    | cons a rest ihc =>
      by_cases ha : a ∈ st.idSet
      · rw [duckhouseNewConnID, if_pos ha, ihc]
        constructor
        · rintro ⟨i, hi, hni⟩
          exact ⟨i, List.mem_cons_of_mem a hi, hni⟩
        · rintro ⟨i, hi, hni⟩
          rcases List.mem_cons.mp hi with he | hmem
          · subst he; exact absurd ha hni
          · exact ⟨i, hmem, hni⟩
      · rw [duckhouseNewConnID, if_neg ha]
        simp only [Option.isSome_some, true_iff]
        exact ⟨a, List.mem_cons_self a rest, ha⟩

theorem duckhouseNewConnID_no_retry_cap_witness :
    (0 : SessionID) ∈ (Registry.mk [0] [] []).idSet ∧
    duckhouseNewConnID 7 (List.replicate 80 0) (Registry.mk [0] [] []) = none :=
  ⟨by decide, duckhouseNewConnID_no_retry_cap.1 7 80 0 (Registry.mk [0] [] []) (by decide)⟩

/-- C6: a GET or POST request to / with empty body and no q or query
parameter gets status 400 with the fixed message, and the registry — in
particular the SessionID→DB mapping — is unchanged: no Session is looked up
or created. -/
theorem emptyQuery_400 (r : Request) (openResult : Except String DB)
    (engine : DB → String → QueryOutcome) (st : Registry)
    (hm : r.method = "GET" ∨ r.method = "POST") (hp : r.path = "/")
    (hb : r.body = "") (hq : r.qParam = "") (hqq : r.queryParam = "") :
    duckhouseHandler r openResult engine st =
      (400, Body.text "No queries, please specify a query\r\n", st) := by
  rw [duckhouseHandler, if_pos hp]
  exact handleQuery_400_of_empty r openResult engine st hm
    (readQuery_of_empty r hb hq hqq)

theorem emptyQuery_400_witness :
    (((Request.mk "GET" "/" "" "" "" (some 3)).method = "GET" ∨
        (Request.mk "GET" "/" "" "" "" (some 3)).method = "POST") ∧
      (Request.mk "GET" "/" "" "" "" (some 3)).path = "/") ∧
    duckhouseHandler (Request.mk "GET" "/" "" "" "" (some 3)) (Except.ok (DB.mk 4))
        (fun d q => QueryOutcome.qok []) (Registry.mk [3] [(0, 3)] []) =
      (400, Body.text "No queries, please specify a query\r\n",
        Registry.mk [3] [(0, 3)] []) :=
  ⟨⟨Or.inl rfl, rfl⟩,
    emptyQuery_400 (Request.mk "GET" "/" "" "" "" (some 3)) (Except.ok (DB.mk 4))
      (fun d q => QueryOutcome.qok []) (Registry.mk [3] [(0, 3)] [])
      (Or.inl rfl) rfl rfl rfl rfl⟩

/-- C7: readQuery resolves the query text as: the body when non-empty, else
parameter q when non-empty, else parameter query when non-empty, else the
empty string, which the endpoint then rejects with status 400. -/
theorem readQuery_spec (r : Request) :
    (r.body ≠ "" → readQuery r = r.body) ∧
    (r.body = "" → r.qParam ≠ "" → readQuery r = r.qParam) ∧
    (r.body = "" → r.qParam = "" → r.queryParam ≠ "" → readQuery r = r.queryParam) ∧
    (r.body = "" → r.qParam = "" → r.queryParam = "" →
      readQuery r = "" ∧
      ∀ openResult engine st, r.method = "GET" →
        duckhouseHandleQuery r openResult engine st =
          (400, Body.text "No queries, please specify a query\r\n", st)) := by
  refine ⟨?_, ?_, ?_, ?_⟩
  · intro hb
    rw [readQuery, if_pos (string_length_pos_of_ne r.body hb)]
  · intro hb hq
    rw [readQuery, hb]
    simp [hq]
  · intro hb hq hqq
    rw [readQuery, hb]
    simp [hq, hqq]
  · intro hb hq hqq
    refine ⟨readQuery_of_empty r hb hq hqq, ?_⟩
    intro openResult engine st hm
    exact handleQuery_400_of_empty r openResult engine st (Or.inl hm)
      (readQuery_of_empty r hb hq hqq)

theorem readQuery_spec_witness :
    ((Request.mk "GET" "/" "b" "p" "" none).body ≠ "" ∧
      readQuery (Request.mk "GET" "/" "b" "p" "" none) = "b") ∧
    ((Request.mk "GET" "/" "" "p" "r" none).body = "" ∧
      (Request.mk "GET" "/" "" "p" "r" none).qParam ≠ "" ∧
      readQuery (Request.mk "GET" "/" "" "p" "r" none) = "p") ∧
    ((Request.mk "GET" "/" "" "" "r" none).queryParam ≠ "" ∧
      readQuery (Request.mk "GET" "/" "" "" "r" none) = "r") ∧
    (readQuery (Request.mk "GET" "/" "" "" "" none) = "" ∧
      duckhouseHandleQuery (Request.mk "GET" "/" "" "" "" none) (Except.ok (DB.mk 4))
          (fun d q => QueryOutcome.qok []) (Registry.mk [] [] []) =
        (400, Body.text "No queries, please specify a query\r\n", Registry.mk [] [] [])) :=
  ⟨⟨by decide, (readQuery_spec (Request.mk "GET" "/" "b" "p" "" none)).1 (by decide)⟩,
    ⟨rfl, by decide,
      (readQuery_spec (Request.mk "GET" "/" "" "p" "r" none)).2.1 rfl (by decide)⟩,
    ⟨by decide,
      (readQuery_spec (Request.mk "GET" "/" "" "" "r" none)).2.2.1 rfl rfl (by decide)⟩,
    ⟨((readQuery_spec (Request.mk "GET" "/" "" "" "" none)).2.2.2 rfl rfl rfl).1,
      ((readQuery_spec (Request.mk "GET" "/" "" "" "" none)).2.2.2 rfl rfl rfl).2
        (Except.ok (DB.mk 4)) (fun d q => QueryOutcome.qok []) (Registry.mk [] [] []) rfl⟩⟩

/-- C9: for every HTTP method, a request whose path is exactly /ping or has
the prefix /ping/ is answered 200 with the fixed body "OK", with the
registry untouched, independent of the method dispatch done on /. -/
theorem ping_200 (r : Request) (openResult : Except String DB)
    (engine : DB → String → QueryOutcome) (st : Registry)
    (hp : r.path = "/ping" ∨ ("/ping/".data.isPrefixOf r.path.data) = true) :
    duckhouseHandler r openResult engine st = (200, Body.text "OK\r\n", st) := by
  have hne : r.path ≠ "/" := by
    rcases hp with h | h
    · rw [h]; decide
    · intro he
      rw [he] at h
      exact absurd h (by decide)
  rw [duckhouseHandler, if_neg hne, if_pos hp]

theorem ping_200_witness :
    ((Request.mk "DELETE" "/ping/x" "q" "" "" none).path = "/ping" ∨
      ("/ping/".data.isPrefixOf (Request.mk "DELETE" "/ping/x" "q" "" "" none).path.data)
        = true) ∧
    duckhouseHandler (Request.mk "DELETE" "/ping/x" "q" "" "" none) (Except.error "e")
        (fun d q => QueryOutcome.qerror "x") (Registry.mk [] [] []) =
      (200, Body.text "OK\r\n", Registry.mk [] [] []) :=
  ⟨Or.inr (by decide),
    ping_200 (Request.mk "DELETE" "/ping/x" "q" "" "" none) (Except.error "e")
      (fun d q => QueryOutcome.qerror "x") (Registry.mk [] [] []) (Or.inr (by decide))⟩

end Duckhouse
